import Mathlib

/-!
Shallow embedding of `src/sensor.c` (ESP32 fingerprint command loop).

The sensor module is modelled by a *script*: a list of status codes, one
consumed per sensor-port call, in call order.  Values the driver caches on
the handle (`fingerID`, `confidence`, `templateCount`) are a `SensorVals`
record.  Each handler returns the trace of events it produced (port calls
and serial responses), the unconsumed rest of the script, and a run status:
`done` when the C function returned, `hung` when the script was exhausted
inside a wait loop or before a needed sensor reply (the C code would still
be blocked waiting on the sensor at that point).
-/

namespace LocalFingerprint

/-- Status code `FINGERPRINT_OK` (0x00) of the Adafruit library. -/
def FINGERPRINT_OK : Nat := 0

/-- Status code `FINGERPRINT_NOFINGER` (0x02) of the Adafruit library. -/
def FINGERPRINT_NOFINGER : Nat := 2

/-- The operations of the sensor capability port, as invoked by `sensor.c`:
`finger.getImage()`, `finger.image2Tz(slot)`, `finger.createModel()`,
`finger.storeModel(id)`, `finger.fingerSearch()`, `finger.deleteModel(id)`,
`finger.getTemplateCount()`. -/
inductive PortOp : Type
  | getImage : PortOp
  | image2Tz : Nat → PortOp
  | createModel : PortOp
  | storeModel : Int → PortOp
  | fingerSearch : PortOp
  | deleteModel : Int → PortOp
  | getTemplateCount : PortOp
deriving DecidableEq, Repr

/-- One serial response, the four arguments of `sendSerialResponse`. -/
structure Response where
  rtype : Char
  rid : Int
  confidence : Int
  message : String
deriving DecidableEq, Repr

/-- An observable event of a handler run: a sensor-port call together with
the status the sensor returned for it, or an emitted serial response. -/
inductive Event : Type
  | portCall : PortOp → Nat → Event
  | response : Response → Event
deriving DecidableEq, Repr

/-- Whether the C function returned (`done`) or is still blocked inside a
wait loop when the scripted sensor outcomes run out (`hung`). -/
inductive RunStatus : Type
  | done : RunStatus
  | hung : RunStatus
deriving DecidableEq, Repr

/-- Values `sensor.c` reads off the driver handle after port calls:
`finger.fingerID`, `finger.confidence`, `finger.templateCount`.
`fingerID` and `confidence` are `uint16_t` fields, hence naturals. -/
structure SensorVals where
  fingerID : Nat
  confidence : Nat
  templateCount : Nat
deriving DecidableEq, Repr

/-- Result of one of the capture-wait loops of `enrollFinger`. -/
inductive WaitResult : Type
  | gotImage : WaitResult
  | failedImage : WaitResult
  | exhausted : WaitResult
deriving DecidableEq, Repr

/-- The capture-wait loop of `enrollFinger` (`sensor.c` lines 115-130 and
149-164): `p = -1; while (p != FINGERPRINT_OK) { p = finger.getImage();
switch ... }` — retry on `FINGERPRINT_NOFINGER`, stop with `gotImage` on
`FINGERPRINT_OK`, stop with `failedImage` on any other status. -/
def waitForImage : List Nat → List Event × List Nat × WaitResult
  | [] => ([], [], .exhausted)
  | p :: rest =>
    if p = FINGERPRINT_OK then
      ([.portCall .getImage p], rest, .gotImage)
    else if p = FINGERPRINT_NOFINGER then
      let r := waitForImage rest
      (.portCall .getImage p :: r.1, r.2.1, r.2.2)
    else
      ([.portCall .getImage p], rest, .failedImage)

/-- The removal-wait loop of `enrollFinger` (`sensor.c` lines 141-145):
`p = 0; while (p != FINGERPRINT_NOFINGER) { p = finger.getImage();
delay(500); }` — a do-while that polls at least once and exits only on
`FINGERPRINT_NOFINGER`; every other status, errors included, re-polls.
The boolean is `true` when the loop exited, `false` when the script ran
out first. -/
def waitForRemoval : List Nat → List Event × List Nat × Bool
  | [] => ([], [], false)
  | p :: rest =>
    if p = FINGERPRINT_NOFINGER then
      ([.portCall .getImage p], rest, true)
    else
      let r := waitForRemoval rest
      (.portCall .getImage p :: r.1, r.2.1, r.2.2)

/-- The success response of `enrollFinger` (`sensor.c` line 186). -/
def successEnroll (id : Int) : Response :=
  ⟨'S', id, 0, "Fingerprint enrolled successfully"⟩

/-- A failure response of `enrollFinger`: `sendSerialResponse(CMD_FAILURE,
id, 0, msg)`. -/
def failEnroll (id : Int) (msg : String) : Response :=
  ⟨'F', id, 0, msg⟩

/-- Prefix a trace onto a stage result. -/
def withEvents (pre : List Event) (t : List Event × List Nat × RunStatus) :
    List Event × List Nat × RunStatus :=
  (pre ++ t.1, t.2)

/-- Stage `p = finger.storeModel(id)` of `enrollFinger` (lines 179-186). -/
def enrollStore (id : Int) : List Nat → List Event × List Nat × RunStatus
  | [] => ([], [], .hung)
  | p :: rest =>
    if p = FINGERPRINT_OK then
      ([.portCall (.storeModel id) p, .response (successEnroll id)], rest, .done)
    else
      ([.portCall (.storeModel id) p,
        .response (failEnroll id "Error storing model")], rest, .done)

/-- Stage `p = finger.createModel()` of `enrollFinger` (lines 172-177). -/
def enrollCreate (id : Int) : List Nat → List Event × List Nat × RunStatus
  | [] => ([], [], .hung)
  | p :: rest =>
    if p = FINGERPRINT_OK then
      withEvents [.portCall .createModel p] (enrollStore id rest)
    else
      ([.portCall .createModel p,
        .response (failEnroll id "Error creating model")], rest, .done)

/-- Stage `p = finger.image2Tz(2)` of `enrollFinger` (lines 166-170). -/
def enrollConvert2 (id : Int) : List Nat → List Event × List Nat × RunStatus
  | [] => ([], [], .hung)
  | p :: rest =>
    if p = FINGERPRINT_OK then
      withEvents [.portCall (.image2Tz 2) p] (enrollCreate id rest)
    else
      ([.portCall (.image2Tz 2) p,
        .response (failEnroll id "Error converting image")], rest, .done)

/-- The second capture-wait of `enrollFinger` (lines 149-164). -/
def enrollCapture2 (id : Int) (s : List Nat) : List Event × List Nat × RunStatus :=
  match waitForImage s with
  | (evs, rest, .gotImage) => withEvents evs (enrollConvert2 id rest)
  | (evs, rest, .failedImage) =>
      (evs ++ [.response (failEnroll id "Error taking image")], rest, .done)
  | (evs, rest, .exhausted) => (evs, rest, .hung)

/-- The removal-wait stage of `enrollFinger` (lines 141-145): only a
`FINGERPRINT_NOFINGER` poll result moves on to the second capture. -/
def enrollRemoval (id : Int) (s : List Nat) : List Event × List Nat × RunStatus :=
  match waitForRemoval s with
  | (evs, rest, true) => withEvents evs (enrollCapture2 id rest)
  | (evs, rest, false) => (evs, rest, .hung)

/-- Stage `p = finger.image2Tz(1)` of `enrollFinger` (lines 132-136). -/
def enrollConvert1 (id : Int) : List Nat → List Event × List Nat × RunStatus
  | [] => ([], [], .hung)
  | p :: rest =>
    if p = FINGERPRINT_OK then
      withEvents [.portCall (.image2Tz 1) p] (enrollRemoval id rest)
    else
      ([.portCall (.image2Tz 1) p,
        .response (failEnroll id "Error converting image")], rest, .done)

/-- `enrollFinger(id)` of `sensor.c` (lines 111-187): first capture-wait,
first conversion, removal-wait, second capture-wait, second conversion,
model creation, model storage, success response; every non-`Ok` stage
outcome responds with a failure and returns. -/
def enrollFinger (id : Int) (s : List Nat) : List Event × List Nat × RunStatus :=
  match waitForImage s with
  | (evs, rest, .gotImage) => withEvents evs (enrollConvert1 id rest)
  | (evs, rest, .failedImage) =>
      (evs ++ [.response (failEnroll id "Error taking image")], rest, .done)
  | (evs, rest, .exhausted) => (evs, rest, .hung)

/-- `getFingerprintID()` of `sensor.c` (lines 189-214): single-attempt
`getImage`, `image2Tz`, `fingerSearch`; returns `-1` on any non-`Ok`
status, else `finger.fingerID`.  `none` models script exhaustion. -/
def getFingerprintID (vals : SensorVals) : List Nat →
    List Event × List Nat × Option Int
  | [] => ([], [], none)
  | p :: s1 =>
    if p ≠ FINGERPRINT_OK then
      ([.portCall .getImage p], s1, some (-1))
    else
      match s1 with
      | [] => ([.portCall .getImage p], [], none)
      | q :: s2 =>
        if q ≠ FINGERPRINT_OK then
          ([.portCall .getImage p, .portCall (.image2Tz 1) q], s2, some (-1))
        else
          match s2 with
          | [] => ([.portCall .getImage p, .portCall (.image2Tz 1) q], [], none)
          | r :: s3 =>
            if r ≠ FINGERPRINT_OK then
              ([.portCall .getImage p, .portCall (.image2Tz 1) q,
                .portCall .fingerSearch r], s3, some (-1))
            else
              ([.portCall .getImage p, .portCall (.image2Tz 1) q,
                .portCall .fingerSearch r], s3, some (vals.fingerID : Int))

/-- `deleteFingerprint(id)` of `sensor.c` (lines 216-224). -/
def deleteFingerprint (id : Int) : List Nat → List Event × List Nat × RunStatus
  | [] => ([], [], .hung)
  | p :: rest =>
    if p = FINGERPRINT_OK then
      ([.portCall (.deleteModel id) p,
        .response ⟨'S', id, 0, "Deleted fingerprint ID #" ++ toString id⟩],
       rest, .done)
    else
      ([.portCall (.deleteModel id) p,
        .response ⟨'F', id, 0, "Failed to delete fingerprint ID #" ++ toString id⟩],
       rest, .done)

/-- The trailing ready response of `loop()` (line 97). -/
def readyResponse : Response := ⟨'Y', 0, 0, "Ready for next command"⟩

/-- The Failure response for an out-of-range or missing id (`loop()`
lines 61 and 79). -/
def invalidIdResponse : Response := ⟨'F', 0, 0, "Invalid ID. Must be between 1-127"⟩

/-- The Failure response of the `default:` branch of `loop()` (line 91). -/
def unknownResponse : Response := ⟨'F', 0, 0, "Unknown command"⟩

/-- The Success response of the Verify branch of `loop()` (line 69). -/
def verifySuccess (vals : SensorVals) : Response :=
  ⟨'S', (vals.fingerID : Int), (vals.confidence : Int), "Fingerprint matched"⟩

/-- The Failure response of the Verify branch of `loop()` (line 71). -/
def noMatchResponse : Response := ⟨'F', 0, 0, "No match found"⟩

/-- The Verify branch of `loop()` (lines 66-74): call `getFingerprintID()`
and respond from its result (`finger.confidence` is read for the Success
response). -/
def verifyHandler (vals : SensorVals) (s : List Nat) :
    List Event × List Nat × RunStatus :=
  match getFingerprintID vals s with
  | (evs, rest, none) => (evs, rest, .hung)
  | (evs, rest, some result) =>
    if 0 ≤ result then
      (evs ++ [.response ⟨'S', result, (vals.confidence : Int),
        "Fingerprint matched"⟩], rest, .done)
    else
      (evs ++ [.response noMatchResponse], rest, .done)

/-- The Count branch of `loop()` (lines 84-87): `finger.getTemplateCount()`
then a `CMD_RESPONSE`-tagged line carrying `finger.templateCount`. -/
def countHandler (vals : SensorVals) (s : List Nat) :
    List Event × List Nat × RunStatus :=
  match s with
  | [] => ([], [], .hung)
  | p :: rest =>
    ([.portCall .getTemplateCount p,
      .response ⟨'R', (vals.templateCount : Int), 0, "Template count"⟩],
     rest, .done)

/-- Append the trailing `CMD_READY` response of `loop()` (line 97) when the
handler returned; a hung handler never reaches it. -/
def finishReady (t : List Event × List Nat × RunStatus) :
    List Event × List Nat × RunStatus :=
  match t with
  | (evs, rest, .done) => (evs ++ [.response readyResponse], rest, .done)
  | (evs, rest, .hung) => (evs, rest, .hung)

/-- One iteration of `loop()` in `sensor.c` (lines 42-99) after a command
byte arrived: resolve the optional id argument (`-1` when absent, the
`Serial.parseInt()` value otherwise), run the `switch`, then emit the
trailing `CMD_READY` response. -/
def dispatch (command : Char) (idArg : Option Int) (vals : SensorVals)
    (s : List Nat) : List Event × List Nat × RunStatus :=
  let id : Int := if command = 'E' ∨ command = 'D' then idArg.getD (-1) else -1
  let core : List Event × List Nat × RunStatus :=
    if command = 'E' then
      if 1 ≤ id ∧ id ≤ 127 then enrollFinger id s
      else ([.response invalidIdResponse], s, .done)
    else if command = 'V' then verifyHandler vals s
    else if command = 'D' then
      if 1 ≤ id ∧ id ≤ 127 then deleteFingerprint id s
      else ([.response invalidIdResponse], s, .done)
    else if command = 'C' then countHandler vals s
    else ([.response unknownResponse], s, .done)
  finishReady core

/-- `sendSerialResponse` of `sensor.c` (lines 226-237): the characters of
the emitted line before the terminating line break —
`R,<type>,<id>,<confidence>,<message>` with the integers printed in
decimal. -/
def sendSerialResponse (r : Response) : String :=
  "R" ++ "," ++ String.singleton r.rtype ++ "," ++ toString r.rid ++ ","
    ++ toString r.confidence ++ "," ++ r.message

/-- The responses of a trace, in emission order. -/
def responsesOf (evs : List Event) : List Response :=
  evs.filterMap fun e =>
    match e with
    | .response r => some r
    | .portCall _ _ => none

/-- The sensor-port calls of a trace, in call order. -/
def portCallsOf (evs : List Event) : List (PortOp × Nat) :=
  evs.filterMap fun e =>
    match e with
    | .portCall op st => some (op, st)
    | .response _ => none

/-- Every element is `FINGERPRINT_NOFINGER`. -/
def allNoFinger (l : List Nat) : Prop := ∀ x ∈ l, x = FINGERPRINT_NOFINGER

/-- No element is `FINGERPRINT_NOFINGER`. -/
def noneNoFinger (l : List Nat) : Prop := ∀ x ∈ l, x ≠ FINGERPRINT_NOFINGER

/-- Shape of a sensor script on which `enrollFinger` succeeds: some
no-finger polls then an `Ok` first capture, an `Ok` first conversion, some
non-no-finger removal polls then the `NoFingerPresent` removal
observation, some no-finger polls then an `Ok` second capture, and `Ok`
statuses for the second conversion, model creation and model storage. -/
def enrollSuccessScript (s : List Nat) : Prop :=
  ∃ a b c rest, allNoFinger a ∧ noneNoFinger b ∧ allNoFinger c ∧
    s = a ++ FINGERPRINT_OK :: (FINGERPRINT_OK :: (b ++ FINGERPRINT_NOFINGER ::
        (c ++ FINGERPRINT_OK :: FINGERPRINT_OK :: FINGERPRINT_OK ::
         FINGERPRINT_OK :: rest)))

/-- The four failure messages of `enrollFinger`, one per failing stage
kind: capture, conversion, model creation, model storage. -/
def enrollFailMessages : List String :=
  ["Error taking image", "Error converting image",
   "Error creating model", "Error storing model"]

end LocalFingerprint

namespace LocalFingerprint


lemma nofinger_ne_ok : FINGERPRINT_NOFINGER ≠ FINGERPRINT_OK := by decide

lemma allNoFinger_nil : allNoFinger [] := by
  intro x hx
  cases hx

lemma noneNoFinger_nil : noneNoFinger [] := by
  intro x hx
  cases hx

lemma allNoFinger_cons {p : Nat} {l : List Nat} (hp : p = FINGERPRINT_NOFINGER)
    (hl : allNoFinger l) : allNoFinger (p :: l) := by
  intro y hy
  rcases List.mem_cons.mp hy with h | h
  · exact h ▸ hp
  · exact hl y h

lemma noneNoFinger_cons {p : Nat} {l : List Nat} (hp : p ≠ FINGERPRINT_NOFINGER)
    (hl : noneNoFinger l) : noneNoFinger (p :: l) := by
  intro y hy
  rcases List.mem_cons.mp hy with h | h
  · exact h ▸ hp
  · exact hl y h

lemma waitForImage_cases (s : List Nat) :
    (∃ a rest, allNoFinger a ∧ s = a ++ FINGERPRINT_OK :: rest ∧
       waitForImage s =
         ((a ++ [FINGERPRINT_OK]).map (Event.portCall .getImage), rest, .gotImage))
  ∨ (∃ a x rest, allNoFinger a ∧ x ≠ FINGERPRINT_OK ∧ x ≠ FINGERPRINT_NOFINGER ∧
       s = a ++ x :: rest ∧
       waitForImage s =
         ((a ++ [x]).map (Event.portCall .getImage), rest, .failedImage))
  ∨ (allNoFinger s ∧
       waitForImage s = (s.map (Event.portCall .getImage), [], .exhausted)) := by
  induction s with
  | nil =>
    right; right
    exact ⟨allNoFinger_nil, by simp [waitForImage]⟩
  | cons p rest ih =>
    by_cases hOK : p = FINGERPRINT_OK
    · left
      exact ⟨[], rest, allNoFinger_nil, by simp [hOK], by simp [waitForImage, hOK]⟩
    · by_cases hNF : p = FINGERPRINT_NOFINGER
      · rcases ih with ⟨a, r1, ha, hs, hw⟩ | ⟨a, x, r1, ha, hx1, hx2, hs, hw⟩ | ⟨ha, hw⟩
        · left
          exact ⟨p :: a, r1, allNoFinger_cons hNF ha, by simp [hs],
            by simp [waitForImage, hOK, hNF, hw, nofinger_ne_ok]⟩
        · right; left
          exact ⟨p :: a, x, r1, allNoFinger_cons hNF ha, hx1, hx2, by simp [hs],
            by simp [waitForImage, hOK, hNF, hw, nofinger_ne_ok]⟩
        · right; right
          exact ⟨allNoFinger_cons hNF ha, by simp [waitForImage, hOK, hNF, hw, nofinger_ne_ok]⟩
      · right; left
        exact ⟨[], p, rest, allNoFinger_nil, hOK, hNF, by simp,
          by simp [waitForImage, hOK, hNF]⟩

lemma waitForRemoval_cases (s : List Nat) :
    (∃ b rest, noneNoFinger b ∧ s = b ++ FINGERPRINT_NOFINGER :: rest ∧
       waitForRemoval s =
         ((b ++ [FINGERPRINT_NOFINGER]).map (Event.portCall .getImage), rest, true))
  ∨ (noneNoFinger s ∧
       waitForRemoval s = (s.map (Event.portCall .getImage), [], false)) := by
  induction s with
  | nil =>
    right
    exact ⟨noneNoFinger_nil, by simp [waitForRemoval]⟩
  | cons p rest ih =>
    by_cases hNF : p = FINGERPRINT_NOFINGER
    · left
      exact ⟨[], rest, noneNoFinger_nil, by simp [hNF], by simp [waitForRemoval, hNF]⟩
    · rcases ih with ⟨b, r1, hb, hs, hw⟩ | ⟨hb, hw⟩
      · left
        exact ⟨p :: b, r1, noneNoFinger_cons hNF hb, by simp [hs],
          by simp [waitForRemoval, hNF, hw]⟩
      · right
        exact ⟨noneNoFinger_cons hNF hb, by simp [waitForRemoval, hNF, hw]⟩


lemma responsesOf_append (a b : List Event) :
    responsesOf (a ++ b) = responsesOf a ++ responsesOf b := by
  simp [responsesOf]

lemma responsesOf_map_getImage (l : List Nat) :
    responsesOf (l.map (Event.portCall .getImage)) = [] := by
  simp [responsesOf]

lemma response_not_mem_map_getImage (r : Response) (l : List Nat) :
    Event.response r ∉ l.map (Event.portCall .getImage) := by
  simp [List.mem_map]

lemma portCallsOf_append (a b : List Event) :
    portCallsOf (a ++ b) = portCallsOf a ++ portCallsOf b := by
  simp [portCallsOf]

lemma portCallsOf_map_getImage (l : List Nat) :
    portCallsOf (l.map (Event.portCall .getImage)) =
      l.map (fun x => (PortOp.getImage, x)) := by
  induction l with
  | nil => rfl
  | cons p rest ih => simpa [portCallsOf] using ih

lemma waitForImage_eval_ok (c : List Nat) (hc : allNoFinger c) (rest : List Nat) :
    waitForImage (c ++ FINGERPRINT_OK :: rest) =
      ((c ++ [FINGERPRINT_OK]).map (Event.portCall .getImage), rest, .gotImage) := by
  induction c with
  | nil => simp [waitForImage]
  | cons p c ih =>
    have hp : p = FINGERPRINT_NOFINGER := hc p (List.mem_cons_self p c)
    have hc2 : allNoFinger c := fun y hy => hc y (List.mem_cons_of_mem p hy)
    simp [waitForImage, hp, nofinger_ne_ok, ih hc2]

lemma waitForImage_eval_exhaust (c : List Nat) (hc : allNoFinger c) :
    waitForImage c = (c.map (Event.portCall .getImage), [], .exhausted) := by
  induction c with
  | nil => rfl
  | cons p c ih =>
    have hp : p = FINGERPRINT_NOFINGER := hc p (List.mem_cons_self p c)
    have hc2 : allNoFinger c := fun y hy => hc y (List.mem_cons_of_mem p hy)
    simp [waitForImage, hp, nofinger_ne_ok, ih hc2]

lemma waitForRemoval_eval (b : List Nat) (hb : noneNoFinger b) (rest : List Nat) :
    waitForRemoval (b ++ FINGERPRINT_NOFINGER :: rest) =
      ((b ++ [FINGERPRINT_NOFINGER]).map (Event.portCall .getImage), rest, true) := by
  induction b with
  | nil => simp [waitForRemoval]
  | cons p b ih =>
    have hp : p ≠ FINGERPRINT_NOFINGER := hb p (List.mem_cons_self p b)
    have hb2 : noneNoFinger b := fun y hy => hb y (List.mem_cons_of_mem p hy)
    simp [waitForRemoval, hp, ih hb2]


lemma append_first_non_nofinger_inj :
    ∀ {a c : List Nat} {x y : Nat} {r1 r2 : List Nat},
      allNoFinger a → allNoFinger c → x ≠ FINGERPRINT_NOFINGER →
      y ≠ FINGERPRINT_NOFINGER → a ++ x :: r1 = c ++ y :: r2 →
      a = c ∧ x = y ∧ r1 = r2 := by
  intro a
  induction a with
  | nil =>
    intro c x y r1 r2 _ hc hx _ h
    cases c with
    | nil =>
      simp only [List.nil_append, List.cons.injEq] at h
      exact ⟨rfl, h.1, h.2⟩
    | cons d c2 =>
      simp only [List.nil_append, List.cons_append, List.cons.injEq] at h
      exact absurd (h.1 ▸ hc d (List.mem_cons_self d c2)) hx
  | cons p a2 ih =>
    intro c x y r1 r2 ha hc hx hy h
    cases c with
    | nil =>
      simp only [List.cons_append, List.nil_append, List.cons.injEq] at h
      exact absurd (h.1 ▸ ha p (List.mem_cons_self p a2)) hy
    | cons d c2 =>
      simp only [List.cons_append, List.cons.injEq] at h
      have ha2 : allNoFinger a2 := fun z hz => ha z (List.mem_cons_of_mem p hz)
      have hc2 : allNoFinger c2 := fun z hz => hc z (List.mem_cons_of_mem d hz)
      obtain ⟨h1, h2, h3⟩ := ih ha2 hc2 hx hy h.2
      exact ⟨by rw [h.1, h1], h2, h3⟩

lemma append_nofinger_inj :
    ∀ {b c r1 r2 : List Nat},
      noneNoFinger b → noneNoFinger c →
      b ++ FINGERPRINT_NOFINGER :: r1 = c ++ FINGERPRINT_NOFINGER :: r2 →
      b = c ∧ r1 = r2 := by
  intro b
  induction b with
  | nil =>
    intro c r1 r2 _ hc h
    cases c with
    | nil =>
      simp only [List.nil_append, List.cons.injEq] at h
      exact ⟨rfl, h.2⟩
    | cons d c2 =>
      simp only [List.nil_append, List.cons_append, List.cons.injEq] at h
      exact absurd h.1.symm (hc d (List.mem_cons_self d c2))
  | cons p b2 ih =>
    intro c r1 r2 hb hc h
    cases c with
    | nil =>
      simp only [List.cons_append, List.nil_append, List.cons.injEq] at h
      exact absurd h.1 (hb p (List.mem_cons_self p b2))
    | cons d c2 =>
      simp only [List.cons_append, List.cons.injEq] at h
      have hb2 : noneNoFinger b2 := fun z hz => hb z (List.mem_cons_of_mem p hz)
      have hc2 : noneNoFinger c2 := fun z hz => hc z (List.mem_cons_of_mem d hz)
      obtain ⟨h1, h2⟩ := ih hb2 hc2 h.2
      exact ⟨by rw [h.1, h1], h2⟩

lemma allNoFinger_no_ok {s c r : List Nat} (hs : allNoFinger s)
    (h : s = c ++ FINGERPRINT_OK :: r) : False := by
  have : FINGERPRINT_OK ∈ s := by
    rw [h]
    exact List.mem_append_right c (List.mem_cons_self _ r)
  exact nofinger_ne_ok ((hs _ this).symm)

lemma noneNoFinger_no_nf {s c r : List Nat} (hs : noneNoFinger s)
    (h : s = c ++ FINGERPRINT_NOFINGER :: r) : False := by
  have : FINGERPRINT_NOFINGER ∈ s := by
    rw [h]
    exact List.mem_append_right c (List.mem_cons_self _ r)
  exact (hs _ this) rfl


lemma successEnroll_ne_failEnroll (id id2 : Int) (m : String) :
    successEnroll id ≠ failEnroll id2 m := by
  intro h
  have := congrArg Response.rtype h
  simp [successEnroll, failEnroll] at this

lemma enrollStore_success_iff (id : Int) (s : List Nat) :
    Event.response (successEnroll id) ∈ (enrollStore id s).1 ↔
      ∃ rest, s = FINGERPRINT_OK :: rest := by
  cases s with
  | nil => simp [enrollStore]
  | cons p rest =>
    by_cases hp : p = FINGERPRINT_OK
    · simp [enrollStore, hp]
    · simp [enrollStore, hp, successEnroll_ne_failEnroll]

lemma enrollCreate_success_iff (id : Int) (s : List Nat) :
    Event.response (successEnroll id) ∈ (enrollCreate id s).1 ↔
      ∃ rest, s = FINGERPRINT_OK :: FINGERPRINT_OK :: rest := by
  cases s with
  | nil => simp [enrollCreate]
  | cons p rest =>
    by_cases hp : p = FINGERPRINT_OK
    · simp [enrollCreate, hp, withEvents, enrollStore_success_iff]
    · simp [enrollCreate, hp, successEnroll_ne_failEnroll]

lemma enrollConvert2_success_iff (id : Int) (s : List Nat) :
    Event.response (successEnroll id) ∈ (enrollConvert2 id s).1 ↔
      ∃ rest, s = FINGERPRINT_OK :: FINGERPRINT_OK :: FINGERPRINT_OK :: rest := by
  cases s with
  | nil => simp [enrollConvert2]
  | cons p rest =>
    by_cases hp : p = FINGERPRINT_OK
    · simp [enrollConvert2, hp, withEvents, enrollCreate_success_iff]
    · simp [enrollConvert2, hp, successEnroll_ne_failEnroll]


lemma ok_ne_nofinger : FINGERPRINT_OK ≠ FINGERPRINT_NOFINGER := by decide

lemma waitForImage_eval_fail (a : List Nat) (ha : allNoFinger a) (x : Nat)
    (r : List Nat) (hx1 : x ≠ FINGERPRINT_OK) (hx2 : x ≠ FINGERPRINT_NOFINGER) :
    waitForImage (a ++ x :: r) =
      ((a ++ [x]).map (Event.portCall .getImage), r, .failedImage) := by
  induction a with
  | nil => simp [waitForImage, hx1, hx2]
  | cons p a2 ih =>
    have hp : p = FINGERPRINT_NOFINGER := ha p (List.mem_cons_self p a2)
    have ha2 : allNoFinger a2 := fun y hy => ha y (List.mem_cons_of_mem p hy)
    simp [waitForImage, hp, nofinger_ne_ok, ih ha2]

lemma enrollCapture2_eval_got (id : Int) (a r1 : List Nat) (ha : allNoFinger a) :
    enrollCapture2 id (a ++ FINGERPRINT_OK :: r1) =
      withEvents ((a ++ [FINGERPRINT_OK]).map (Event.portCall .getImage))
        (enrollConvert2 id r1) := by
  unfold enrollCapture2
  rw [waitForImage_eval_ok a ha r1]

lemma enrollCapture2_eval_fail (id : Int) (a : List Nat) (x : Nat) (r1 : List Nat)
    (ha : allNoFinger a) (hx1 : x ≠ FINGERPRINT_OK) (hx2 : x ≠ FINGERPRINT_NOFINGER) :
    enrollCapture2 id (a ++ x :: r1) =
      ((a ++ [x]).map (Event.portCall .getImage) ++
        [.response (failEnroll id "Error taking image")], r1, .done) := by
  unfold enrollCapture2
  rw [waitForImage_eval_fail a ha x r1 hx1 hx2]

lemma enrollCapture2_eval_exhaust (id : Int) (s : List Nat) (hs : allNoFinger s) :
    enrollCapture2 id s = (s.map (Event.portCall .getImage), [], .hung) := by
  unfold enrollCapture2
  rw [waitForImage_eval_exhaust s hs]

lemma enrollRemoval_eval_found (id : Int) (b r1 : List Nat) (hb : noneNoFinger b) :
    enrollRemoval id (b ++ FINGERPRINT_NOFINGER :: r1) =
      withEvents ((b ++ [FINGERPRINT_NOFINGER]).map (Event.portCall .getImage))
        (enrollCapture2 id r1) := by
  unfold enrollRemoval
  rw [waitForRemoval_eval b hb r1]

lemma enrollRemoval_eval_lost (id : Int) (s : List Nat) (hs : noneNoFinger s) :
    enrollRemoval id s = (s.map (Event.portCall .getImage), [], .hung) := by
  unfold enrollRemoval
  have : waitForRemoval s = (s.map (Event.portCall .getImage), [], false) := by
    rcases waitForRemoval_cases s with ⟨b, rest, hb, heq, hw⟩ | ⟨_, hw⟩
    · exact absurd heq (fun h => noneNoFinger_no_nf hs h)
    · exact hw
  rw [this]

lemma enrollFinger_eval_got (id : Int) (a r1 : List Nat) (ha : allNoFinger a) :
    enrollFinger id (a ++ FINGERPRINT_OK :: r1) =
      withEvents ((a ++ [FINGERPRINT_OK]).map (Event.portCall .getImage))
        (enrollConvert1 id r1) := by
  unfold enrollFinger
  rw [waitForImage_eval_ok a ha r1]

lemma enrollFinger_eval_fail (id : Int) (a : List Nat) (x : Nat) (r1 : List Nat)
    (ha : allNoFinger a) (hx1 : x ≠ FINGERPRINT_OK) (hx2 : x ≠ FINGERPRINT_NOFINGER) :
    enrollFinger id (a ++ x :: r1) =
      ((a ++ [x]).map (Event.portCall .getImage) ++
        [.response (failEnroll id "Error taking image")], r1, .done) := by
  unfold enrollFinger
  rw [waitForImage_eval_fail a ha x r1 hx1 hx2]

lemma enrollFinger_eval_exhaust (id : Int) (s : List Nat) (hs : allNoFinger s) :
    enrollFinger id s = (s.map (Event.portCall .getImage), [], .hung) := by
  unfold enrollFinger
  rw [waitForImage_eval_exhaust s hs]

lemma enrollCapture2_success_iff (id : Int) (s : List Nat) :
    Event.response (successEnroll id) ∈ (enrollCapture2 id s).1 ↔
      ∃ c rest, allNoFinger c ∧
        s = c ++ FINGERPRINT_OK :: FINGERPRINT_OK :: FINGERPRINT_OK ::
            FINGERPRINT_OK :: rest := by
  rcases waitForImage_cases s with ⟨a, r1, ha, rfl, _⟩ |
    ⟨a, x, r1, ha, hx1, hx2, rfl, _⟩ | ⟨ha, _⟩
  · rw [enrollCapture2_eval_got id a r1 ha]
    simp only [withEvents, List.mem_append, enrollConvert2_success_iff]
    constructor
    · rintro (hmem | ⟨rest, rfl⟩)
      · exact absurd hmem (response_not_mem_map_getImage _ _)
      · exact ⟨a, rest, ha, rfl⟩
    · rintro ⟨c, rest, hc, heq⟩
      right
      obtain ⟨-, -, h3⟩ :=
        append_first_non_nofinger_inj ha hc ok_ne_nofinger ok_ne_nofinger heq
      exact ⟨rest, h3⟩
  · rw [enrollCapture2_eval_fail id a x r1 ha hx1 hx2]
    constructor
    · intro hmem
      simp [response_not_mem_map_getImage, successEnroll_ne_failEnroll] at hmem
    · rintro ⟨c, rest, hc, heq⟩
      obtain ⟨-, h2, -⟩ :=
        append_first_non_nofinger_inj ha hc hx2 ok_ne_nofinger heq
      exact absurd h2 hx1
  · rw [enrollCapture2_eval_exhaust id _ ha]
    constructor
    · intro hmem
      exact absurd hmem (response_not_mem_map_getImage _ _)
    · rintro ⟨c, rest, hc, heq⟩
      exact absurd heq (fun h => allNoFinger_no_ok ha h)

lemma enrollRemoval_success_iff (id : Int) (s : List Nat) :
    Event.response (successEnroll id) ∈ (enrollRemoval id s).1 ↔
      ∃ b c rest, noneNoFinger b ∧ allNoFinger c ∧
        s = b ++ FINGERPRINT_NOFINGER ::
            (c ++ FINGERPRINT_OK :: FINGERPRINT_OK :: FINGERPRINT_OK ::
             FINGERPRINT_OK :: rest) := by
  rcases waitForRemoval_cases s with ⟨b, r1, hb, rfl, _⟩ | ⟨hb, _⟩
  · rw [enrollRemoval_eval_found id b r1 hb]
    simp only [withEvents, List.mem_append, enrollCapture2_success_iff]
    constructor
    · rintro (hmem | ⟨c, rest, hc, rfl⟩)
      · exact absurd hmem (response_not_mem_map_getImage _ _)
      · exact ⟨b, c, rest, hb, hc, rfl⟩
    · rintro ⟨b2, c, rest, hb2, hc, heq⟩
      right
      obtain ⟨-, h2⟩ := append_nofinger_inj hb hb2 heq
      exact ⟨c, rest, hc, h2⟩
  · rw [enrollRemoval_eval_lost id _ hb]
    constructor
    · intro hmem
      exact absurd hmem (response_not_mem_map_getImage _ _)
    · rintro ⟨b2, c, rest, hb2, hc, heq⟩
      exact absurd heq (fun h => noneNoFinger_no_nf hb h)

lemma enrollConvert1_success_iff (id : Int) (s : List Nat) :
    Event.response (successEnroll id) ∈ (enrollConvert1 id s).1 ↔
      ∃ b c rest, noneNoFinger b ∧ allNoFinger c ∧
        s = FINGERPRINT_OK :: (b ++ FINGERPRINT_NOFINGER ::
            (c ++ FINGERPRINT_OK :: FINGERPRINT_OK :: FINGERPRINT_OK ::
             FINGERPRINT_OK :: rest)) := by
  cases s with
  | nil => simp [enrollConvert1]
  | cons p rest =>
    by_cases hp : p = FINGERPRINT_OK
    · simp [enrollConvert1, hp, withEvents, enrollRemoval_success_iff]
    · simp [enrollConvert1, hp, successEnroll_ne_failEnroll]

lemma enrollFinger_success_iff (id : Int) (s : List Nat) :
    Event.response (successEnroll id) ∈ (enrollFinger id s).1 ↔
      enrollSuccessScript s := by
  unfold enrollSuccessScript
  rcases waitForImage_cases s with ⟨a, r1, ha, rfl, _⟩ |
    ⟨a, x, r1, ha, hx1, hx2, rfl, _⟩ | ⟨ha, _⟩
  · rw [enrollFinger_eval_got id a r1 ha]
    simp only [withEvents, List.mem_append, enrollConvert1_success_iff]
    constructor
    · rintro (hmem | ⟨b, c, rest, hb, hc, rfl⟩)
      · exact absurd hmem (response_not_mem_map_getImage _ _)
      · exact ⟨a, b, c, rest, ha, hb, hc, rfl⟩
    · rintro ⟨a2, b, c, rest, ha2, hb, hc, heq⟩
      right
      obtain ⟨-, -, h3⟩ :=
        append_first_non_nofinger_inj ha ha2 ok_ne_nofinger ok_ne_nofinger heq
      exact ⟨b, c, rest, hb, hc, h3⟩
  · rw [enrollFinger_eval_fail id a x r1 ha hx1 hx2]
    constructor
    · intro hmem
      simp [response_not_mem_map_getImage, successEnroll_ne_failEnroll] at hmem
    · rintro ⟨a2, b, c, rest, ha2, hb, hc, heq⟩
      obtain ⟨-, h2, -⟩ :=
        append_first_non_nofinger_inj ha ha2 hx2 ok_ne_nofinger heq
      exact absurd h2 hx1
  · rw [enrollFinger_eval_exhaust id _ ha]
    constructor
    · intro hmem
      exact absurd hmem (response_not_mem_map_getImage _ _)
    · rintro ⟨a2, b, c, rest, ha2, hb, hc, heq⟩
      exact absurd heq (fun h => allNoFinger_no_ok ha h)


/-- Response discipline of an enrollment stage result: no response at all
when the run is still blocked, otherwise exactly one final response, either
the success response or one of the four stage-failure responses. -/
def enrollShape (id : Int) (t : List Event × List Nat × RunStatus) : Prop :=
  (t.2.2 = .hung → responsesOf t.1 = []) ∧
  (t.2.2 = .done → ∃ pre r, t.1 = pre ++ [Event.response r] ∧
    responsesOf pre = [] ∧
    (r = successEnroll id ∨ ∃ m ∈ enrollFailMessages, r = failEnroll id m))

lemma enrollShape_withEvents {id : Int} {pre : List Event}
    {t : List Event × List Nat × RunStatus} (hpre : responsesOf pre = [])
    (h : enrollShape id t) : enrollShape id (withEvents pre t) := by
  obtain ⟨h1, h2⟩ := h
  constructor
  · intro hh
    simp only [withEvents] at hh ⊢
    rw [responsesOf_append, hpre, h1 hh]
    rfl
  · intro hh
    simp only [withEvents] at hh ⊢
    obtain ⟨p2, r, hev, hp2, hr⟩ := h2 hh
    refine ⟨pre ++ p2, r, ?_, ?_, hr⟩
    · rw [hev, List.append_assoc]
    · rw [responsesOf_append, hpre, hp2]
      rfl

lemma enrollStore_shape (id : Int) (s : List Nat) :
    enrollShape id (enrollStore id s) := by
  cases s with
  | nil =>
    exact ⟨fun _ => rfl, fun hh => by simp [enrollStore] at hh⟩
  | cons p rest =>
    by_cases hp : p = FINGERPRINT_OK
    · refine ⟨fun hh => by simp [enrollStore, hp] at hh, fun _ => ?_⟩
      exact ⟨[.portCall (.storeModel id) p], successEnroll id,
        by simp [enrollStore, hp], rfl, Or.inl rfl⟩
    · refine ⟨fun hh => by simp [enrollStore, hp] at hh, fun _ => ?_⟩
      exact ⟨[.portCall (.storeModel id) p], failEnroll id "Error storing model",
        by simp [enrollStore, hp], rfl,
        Or.inr ⟨"Error storing model", by simp [enrollFailMessages], rfl⟩⟩

lemma enrollCreate_shape (id : Int) (s : List Nat) :
    enrollShape id (enrollCreate id s) := by
  cases s with
  | nil =>
    exact ⟨fun _ => rfl, fun hh => by simp [enrollCreate] at hh⟩
  | cons p rest =>
    by_cases hp : p = FINGERPRINT_OK
    · have : enrollCreate id (p :: rest) =
          withEvents [.portCall .createModel p] (enrollStore id rest) := by
        simp [enrollCreate, hp]
      rw [this]
      exact enrollShape_withEvents rfl (enrollStore_shape id rest)
    · refine ⟨fun hh => by simp [enrollCreate, hp] at hh, fun _ => ?_⟩
      exact ⟨[.portCall .createModel p], failEnroll id "Error creating model",
        by simp [enrollCreate, hp], rfl,
        Or.inr ⟨"Error creating model", by simp [enrollFailMessages], rfl⟩⟩

lemma enrollConvert2_shape (id : Int) (s : List Nat) :
    enrollShape id (enrollConvert2 id s) := by
  cases s with
  | nil =>
    exact ⟨fun _ => rfl, fun hh => by simp [enrollConvert2] at hh⟩
  | cons p rest =>
    by_cases hp : p = FINGERPRINT_OK
    · have : enrollConvert2 id (p :: rest) =
          withEvents [.portCall (.image2Tz 2) p] (enrollCreate id rest) := by
        simp [enrollConvert2, hp]
      rw [this]
      exact enrollShape_withEvents rfl (enrollCreate_shape id rest)
    · refine ⟨fun hh => by simp [enrollConvert2, hp] at hh, fun _ => ?_⟩
      exact ⟨[.portCall (.image2Tz 2) p], failEnroll id "Error converting image",
        by simp [enrollConvert2, hp], rfl,
        Or.inr ⟨"Error converting image", by simp [enrollFailMessages], rfl⟩⟩

lemma enrollCapture2_shape (id : Int) (s : List Nat) :
    enrollShape id (enrollCapture2 id s) := by
  rcases waitForImage_cases s with ⟨a, r1, ha, rfl, _⟩ |
    ⟨a, x, r1, ha, hx1, hx2, rfl, _⟩ | ⟨ha, _⟩
  · rw [enrollCapture2_eval_got id a r1 ha]
    exact enrollShape_withEvents (responsesOf_map_getImage _)
      (enrollConvert2_shape id r1)
  · rw [enrollCapture2_eval_fail id a x r1 ha hx1 hx2]
    refine ⟨fun hh => by simp at hh, fun _ => ?_⟩
    exact ⟨(a ++ [x]).map (Event.portCall .getImage),
      failEnroll id "Error taking image", rfl, responsesOf_map_getImage _,
      Or.inr ⟨"Error taking image", by simp [enrollFailMessages], rfl⟩⟩
  · rw [enrollCapture2_eval_exhaust id _ ha]
    exact ⟨fun _ => responsesOf_map_getImage _, fun hh => by simp at hh⟩

lemma enrollRemoval_shape (id : Int) (s : List Nat) :
    enrollShape id (enrollRemoval id s) := by
  rcases waitForRemoval_cases s with ⟨b, r1, hb, rfl, _⟩ | ⟨hb, _⟩
  · rw [enrollRemoval_eval_found id b r1 hb]
    exact enrollShape_withEvents (responsesOf_map_getImage _)
      (enrollCapture2_shape id r1)
  · rw [enrollRemoval_eval_lost id _ hb]
    exact ⟨fun _ => responsesOf_map_getImage _, fun hh => by simp at hh⟩

lemma enrollConvert1_shape (id : Int) (s : List Nat) :
    enrollShape id (enrollConvert1 id s) := by
  cases s with
  | nil =>
    exact ⟨fun _ => rfl, fun hh => by simp [enrollConvert1] at hh⟩
  | cons p rest =>
    by_cases hp : p = FINGERPRINT_OK
    · have : enrollConvert1 id (p :: rest) =
          withEvents [.portCall (.image2Tz 1) p] (enrollRemoval id rest) := by
        simp [enrollConvert1, hp]
      rw [this]
      exact enrollShape_withEvents rfl (enrollRemoval_shape id rest)
    · refine ⟨fun hh => by simp [enrollConvert1, hp] at hh, fun _ => ?_⟩
      exact ⟨[.portCall (.image2Tz 1) p], failEnroll id "Error converting image",
        by simp [enrollConvert1, hp], rfl,
        Or.inr ⟨"Error converting image", by simp [enrollFailMessages], rfl⟩⟩

lemma enrollFinger_shape (id : Int) (s : List Nat) :
    enrollShape id (enrollFinger id s) := by
  rcases waitForImage_cases s with ⟨a, r1, ha, rfl, _⟩ |
    ⟨a, x, r1, ha, hx1, hx2, rfl, _⟩ | ⟨ha, _⟩
  · rw [enrollFinger_eval_got id a r1 ha]
    exact enrollShape_withEvents (responsesOf_map_getImage _)
      (enrollConvert1_shape id r1)
  · rw [enrollFinger_eval_fail id a x r1 ha hx1 hx2]
    refine ⟨fun hh => by simp at hh, fun _ => ?_⟩
    exact ⟨(a ++ [x]).map (Event.portCall .getImage),
      failEnroll id "Error taking image", rfl, responsesOf_map_getImage _,
      Or.inr ⟨"Error taking image", by simp [enrollFailMessages], rfl⟩⟩
  · rw [enrollFinger_eval_exhaust id _ ha]
    exact ⟨fun _ => responsesOf_map_getImage _, fun hh => by simp at hh⟩

lemma all_portCall_of_responsesOf_nil {l : List Event}
    (h : responsesOf l = []) : ∀ e ∈ l, ∃ op st, e = Event.portCall op st := by
  intro e he
  cases e with
  | portCall op st => exact ⟨op, st, rfl⟩
  | response r =>
    rw [responsesOf, List.filterMap_eq_nil_iff] at h
    have := h _ he
    simp at this


lemma responsesOf_single_response (r : Response) :
    responsesOf [Event.response r] = [r] := rfl

/-- Response discipline of a `switch` branch of `loop()`: no response when
still blocked, else exactly one final response tagged `S`, `F` or `R`. -/
def coreShape (t : List Event × List Nat × RunStatus) : Prop :=
  (t.2.2 = .hung → responsesOf t.1 = []) ∧
  (t.2.2 = .done → ∃ pre r, t.1 = pre ++ [Event.response r] ∧
    responsesOf pre = [] ∧ (r.rtype = 'S' ∨ r.rtype = 'F' ∨ r.rtype = 'R'))

lemma coreShape_of_enrollShape {id : Int} {t : List Event × List Nat × RunStatus}
    (h : enrollShape id t) : coreShape t := by
  obtain ⟨h1, h2⟩ := h
  refine ⟨h1, fun hh => ?_⟩
  obtain ⟨pre, r, hev, hpre, hr⟩ := h2 hh
  refine ⟨pre, r, hev, hpre, ?_⟩
  rcases hr with rfl | ⟨m, _, rfl⟩
  · exact Or.inl rfl
  · exact Or.inr (Or.inl rfl)

lemma coreShape_single_response (r : Response) (s : List Nat)
    (h : r.rtype = 'S' ∨ r.rtype = 'F' ∨ r.rtype = 'R') :
    coreShape ([Event.response r], s, .done) := by
  exact ⟨fun hh => by simp at hh, fun _ => ⟨[], r, rfl, rfl, h⟩⟩

lemma verifyHandler_cases (vals : SensorVals) (s : List Nat) :
    (s = [] ∧ verifyHandler vals s = ([], [], .hung))
  ∨ (∃ p s1, s = p :: s1 ∧ p ≠ FINGERPRINT_OK ∧
      verifyHandler vals s =
        ([.portCall .getImage p, .response noMatchResponse], s1, .done))
  ∨ (s = [FINGERPRINT_OK] ∧ verifyHandler vals s =
        ([.portCall .getImage FINGERPRINT_OK], [], .hung))
  ∨ (∃ q s2, s = FINGERPRINT_OK :: q :: s2 ∧ q ≠ FINGERPRINT_OK ∧
      verifyHandler vals s =
        ([.portCall .getImage FINGERPRINT_OK, .portCall (.image2Tz 1) q,
          .response noMatchResponse], s2, .done))
  ∨ (s = [FINGERPRINT_OK, FINGERPRINT_OK] ∧ verifyHandler vals s =
        ([.portCall .getImage FINGERPRINT_OK,
          .portCall (.image2Tz 1) FINGERPRINT_OK], [], .hung))
  ∨ (∃ r s3, s = FINGERPRINT_OK :: FINGERPRINT_OK :: r :: s3 ∧
      r ≠ FINGERPRINT_OK ∧
      verifyHandler vals s =
        ([.portCall .getImage FINGERPRINT_OK,
          .portCall (.image2Tz 1) FINGERPRINT_OK, .portCall .fingerSearch r,
          .response noMatchResponse], s3, .done))
  ∨ (∃ s3, s = FINGERPRINT_OK :: FINGERPRINT_OK :: FINGERPRINT_OK :: s3 ∧
      verifyHandler vals s =
        ([.portCall .getImage FINGERPRINT_OK,
          .portCall (.image2Tz 1) FINGERPRINT_OK,
          .portCall .fingerSearch FINGERPRINT_OK,
          .response (verifySuccess vals)], s3, .done)) := by
  cases s with
  | nil => exact Or.inl ⟨rfl, rfl⟩
  | cons p s1 =>
    by_cases hp : p = FINGERPRINT_OK
    · subst hp
      cases s1 with
      | nil =>
        refine Or.inr (Or.inr (Or.inl ⟨rfl, ?_⟩))
        simp [verifyHandler, getFingerprintID]
      | cons q s2 =>
        by_cases hq : q = FINGERPRINT_OK
        · subst hq
          cases s2 with
          | nil =>
            refine Or.inr (Or.inr (Or.inr (Or.inr (Or.inl ⟨rfl, ?_⟩))))
            simp [verifyHandler, getFingerprintID]
          | cons r s3 =>
            by_cases hr : r = FINGERPRINT_OK
            · subst hr
              refine Or.inr (Or.inr (Or.inr (Or.inr (Or.inr (Or.inr
                ⟨s3, rfl, ?_⟩)))))
              simp [verifyHandler, getFingerprintID, verifySuccess]
            · refine Or.inr (Or.inr (Or.inr (Or.inr (Or.inr (Or.inl
                ⟨r, s3, rfl, hr, ?_⟩)))))
              simp [verifyHandler, getFingerprintID, hr]
        · refine Or.inr (Or.inr (Or.inr (Or.inl ⟨q, s2, rfl, hq, ?_⟩)))
          simp [verifyHandler, getFingerprintID, hq]
    · refine Or.inr (Or.inl ⟨p, s1, rfl, hp, ?_⟩)
      simp [verifyHandler, getFingerprintID, hp]

lemma verifyHandler_coreShape (vals : SensorVals) (s : List Nat) :
    coreShape (verifyHandler vals s) := by
  rcases verifyHandler_cases vals s with ⟨-, hv⟩ | ⟨p, s1, -, -, hv⟩ |
    ⟨-, hv⟩ | ⟨q, s2, -, -, hv⟩ | ⟨-, hv⟩ | ⟨r, s3, -, -, hv⟩ | ⟨s3, -, hv⟩ <;>
    rw [hv]
  · exact ⟨fun _ => rfl, fun hh => by simp at hh⟩
  · refine ⟨fun hh => by simp at hh, fun _ => ?_⟩
    exact ⟨[.portCall .getImage p], noMatchResponse, rfl, rfl, Or.inr (Or.inl rfl)⟩
  · exact ⟨fun _ => rfl, fun hh => by simp at hh⟩
  · refine ⟨fun hh => by simp at hh, fun _ => ?_⟩
    exact ⟨[.portCall .getImage FINGERPRINT_OK, .portCall (.image2Tz 1) q],
      noMatchResponse, rfl, rfl, Or.inr (Or.inl rfl)⟩
  · exact ⟨fun _ => rfl, fun hh => by simp at hh⟩
  · refine ⟨fun hh => by simp at hh, fun _ => ?_⟩
    exact ⟨[.portCall .getImage FINGERPRINT_OK,
      .portCall (.image2Tz 1) FINGERPRINT_OK, .portCall .fingerSearch r],
      noMatchResponse, rfl, rfl, Or.inr (Or.inl rfl)⟩
  · refine ⟨fun hh => by simp at hh, fun _ => ?_⟩
    exact ⟨[.portCall .getImage FINGERPRINT_OK,
      .portCall (.image2Tz 1) FINGERPRINT_OK,
      .portCall .fingerSearch FINGERPRINT_OK],
      verifySuccess vals, rfl, rfl, Or.inl rfl⟩

lemma deleteFingerprint_cases (id : Int) (s : List Nat) :
    (s = [] ∧ deleteFingerprint id s = ([], [], .hung))
  ∨ (∃ rest, s = FINGERPRINT_OK :: rest ∧
      deleteFingerprint id s =
        ([.portCall (.deleteModel id) FINGERPRINT_OK,
          .response ⟨'S', id, 0, "Deleted fingerprint ID #" ++ toString id⟩],
         rest, .done))
  ∨ (∃ p rest, s = p :: rest ∧ p ≠ FINGERPRINT_OK ∧
      deleteFingerprint id s =
        ([.portCall (.deleteModel id) p,
          .response ⟨'F', id, 0, "Failed to delete fingerprint ID #" ++ toString id⟩],
         rest, .done)) := by
  cases s with
  | nil => exact Or.inl ⟨rfl, rfl⟩
  | cons p rest =>
    by_cases hp : p = FINGERPRINT_OK
    · subst hp
      exact Or.inr (Or.inl ⟨rest, rfl, by simp [deleteFingerprint]⟩)
    · exact Or.inr (Or.inr ⟨p, rest, rfl, hp, by simp [deleteFingerprint, hp]⟩)

lemma deleteFingerprint_coreShape (id : Int) (s : List Nat) :
    coreShape (deleteFingerprint id s) := by
  rcases deleteFingerprint_cases id s with ⟨-, hv⟩ | ⟨rest, -, hv⟩ |
    ⟨p, rest, -, -, hv⟩ <;> rw [hv]
  · exact ⟨fun _ => rfl, fun hh => by simp at hh⟩
  · refine ⟨fun hh => by simp at hh, fun _ => ?_⟩
    exact ⟨[.portCall (.deleteModel id) FINGERPRINT_OK], _, rfl, rfl, Or.inl rfl⟩
  · refine ⟨fun hh => by simp at hh, fun _ => ?_⟩
    exact ⟨[.portCall (.deleteModel id) p], _, rfl, rfl, Or.inr (Or.inl rfl)⟩

lemma countHandler_cases (vals : SensorVals) (s : List Nat) :
    (s = [] ∧ countHandler vals s = ([], [], .hung))
  ∨ (∃ p rest, s = p :: rest ∧
      countHandler vals s =
        ([.portCall .getTemplateCount p,
          .response ⟨'R', (vals.templateCount : Int), 0, "Template count"⟩],
         rest, .done)) := by
  cases s with
  | nil => exact Or.inl ⟨rfl, rfl⟩
  | cons p rest => exact Or.inr ⟨p, rest, rfl, rfl⟩

lemma countHandler_coreShape (vals : SensorVals) (s : List Nat) :
    coreShape (countHandler vals s) := by
  rcases countHandler_cases vals s with ⟨-, hv⟩ | ⟨p, rest, -, hv⟩ <;> rw [hv]
  · exact ⟨fun _ => rfl, fun hh => by simp at hh⟩
  · refine ⟨fun hh => by simp at hh, fun _ => ?_⟩
    exact ⟨[.portCall .getTemplateCount p], _, rfl, rfl, Or.inr (Or.inr rfl)⟩

lemma finishReady_responses {t : List Event × List Nat × RunStatus}
    (h : coreShape t) :
    ((finishReady t).2.2 = .done →
      ∃ r, responsesOf (finishReady t).1 = [r, readyResponse] ∧
        (r.rtype = 'S' ∨ r.rtype = 'F' ∨ r.rtype = 'R')) ∧
    ((finishReady t).2.2 = .hung → responsesOf (finishReady t).1 = []) := by
  obtain ⟨h1, h2⟩ := h
  obtain ⟨evs, rest, st⟩ := t
  cases st with
  | done =>
    obtain ⟨pre, r, hev, hpre, hr⟩ := h2 rfl
    refine ⟨fun _ => ⟨r, ?_, hr⟩, fun hh => by simp [finishReady] at hh⟩
    have hev2 : evs = pre ++ [Event.response r] := hev
    show responsesOf (evs ++ [Event.response readyResponse]) = [r, readyResponse]
    rw [hev2, responsesOf_append, responsesOf_append, hpre,
      responsesOf_single_response, responsesOf_single_response]
    rfl
  | hung =>
    exact ⟨fun hh => by simp [finishReady] at hh, fun _ => h1 rfl⟩

lemma dispatch_eq_enroll (a : Option Int) (v : SensorVals) (s : List Nat)
    (hr : 1 ≤ a.getD (-1) ∧ a.getD (-1) ≤ 127) :
    dispatch 'E' a v s = finishReady (enrollFinger (a.getD (-1)) s) := by
  simp [dispatch, hr]

lemma dispatch_eq_enroll_invalid (a : Option Int) (v : SensorVals) (s : List Nat)
    (hr : ¬ (1 ≤ a.getD (-1) ∧ a.getD (-1) ≤ 127)) :
    dispatch 'E' a v s = finishReady ([.response invalidIdResponse], s, .done) := by
  simp [dispatch, hr]

lemma dispatch_eq_verify (a : Option Int) (v : SensorVals) (s : List Nat) :
    dispatch 'V' a v s = finishReady (verifyHandler v s) := by
  simp [dispatch]

lemma dispatch_eq_delete (a : Option Int) (v : SensorVals) (s : List Nat)
    (hr : 1 ≤ a.getD (-1) ∧ a.getD (-1) ≤ 127) :
    dispatch 'D' a v s = finishReady (deleteFingerprint (a.getD (-1)) s) := by
  simp [dispatch, hr]

lemma dispatch_eq_delete_invalid (a : Option Int) (v : SensorVals) (s : List Nat)
    (hr : ¬ (1 ≤ a.getD (-1) ∧ a.getD (-1) ≤ 127)) :
    dispatch 'D' a v s = finishReady ([.response invalidIdResponse], s, .done) := by
  simp [dispatch, hr]

lemma dispatch_eq_count (a : Option Int) (v : SensorVals) (s : List Nat) :
    dispatch 'C' a v s = finishReady (countHandler v s) := by
  simp [dispatch]

lemma dispatch_eq_unknown (c : Char) (a : Option Int) (v : SensorVals)
    (s : List Nat) (hE : c ≠ 'E') (hV : c ≠ 'V') (hD : c ≠ 'D')
    (hC : c ≠ 'C') :
    dispatch c a v s = finishReady ([.response unknownResponse], s, .done) := by
  simp [dispatch, hE, hV, hD, hC]


lemma mem_responsesOf {r : Response} {l : List Event} :
    r ∈ responsesOf l ↔ Event.response r ∈ l := by
  constructor
  · intro h
    obtain ⟨e, he, hm⟩ := List.mem_filterMap.mp h
    cases e with
    | portCall op st => cases hm
    | response r2 =>
      obtain rfl : r2 = r := by
        simpa using hm
      exact he
  · intro h
    exact List.mem_filterMap.mpr ⟨Event.response r, h, rfl⟩

lemma enrollConvert1_eval_ok (id : Int) (t : List Nat) :
    enrollConvert1 id (FINGERPRINT_OK :: t) =
      withEvents [Event.portCall (.image2Tz 1) FINGERPRINT_OK]
        (enrollRemoval id t) := by
  simp [enrollConvert1]

lemma enrollFinger_replicate_nofinger (id : Int) (n : Nat) :
    enrollFinger id (List.replicate n FINGERPRINT_NOFINGER) =
      ((List.replicate n FINGERPRINT_NOFINGER).map (Event.portCall .getImage),
       [], .hung) :=
  enrollFinger_eval_exhaust id _ (fun _ hx => List.eq_of_mem_replicate hx)

lemma dispatch_responses_spec (c : Char) (a : Option Int) (v : SensorVals)
    (s : List Nat) :
    ((dispatch c a v s).2.2 = .done →
      ∃ t, responsesOf (dispatch c a v s).1 = [t, readyResponse] ∧
        (t.rtype = 'S' ∨ t.rtype = 'F' ∨ t.rtype = 'R')) ∧
    ((dispatch c a v s).2.2 = .hung →
      responsesOf (dispatch c a v s).1 = []) := by
  by_cases hE : c = 'E'
  · subst hE
    by_cases hr : 1 ≤ a.getD (-1) ∧ a.getD (-1) ≤ 127
    · rw [dispatch_eq_enroll a v s hr]
      exact finishReady_responses (coreShape_of_enrollShape (enrollFinger_shape _ s))
    · rw [dispatch_eq_enroll_invalid a v s hr]
      exact finishReady_responses (coreShape_single_response _ _ (Or.inr (Or.inl rfl)))
  · by_cases hV : c = 'V'
    · subst hV
      rw [dispatch_eq_verify]
      exact finishReady_responses (verifyHandler_coreShape v s)
    · by_cases hD : c = 'D'
      · subst hD
        by_cases hr : 1 ≤ a.getD (-1) ∧ a.getD (-1) ≤ 127
        · rw [dispatch_eq_delete a v s hr]
          exact finishReady_responses (deleteFingerprint_coreShape _ s)
        · rw [dispatch_eq_delete_invalid a v s hr]
          exact finishReady_responses
            (coreShape_single_response _ _ (Or.inr (Or.inl rfl)))
      · by_cases hC : c = 'C'
        · subst hC
          rw [dispatch_eq_count]
          exact finishReady_responses (countHandler_coreShape v s)
        · rw [dispatch_eq_unknown c a v s hE hV hD hC]
          exact finishReady_responses
            (coreShape_single_response _ _ (Or.inr (Or.inl rfl)))


/-- C1: a Success response carrying the requested id is emitted by
`enrollFinger` exactly when the sensor script has the full success shape —
first capture reached `Ok` (after no-finger retries), first conversion
`Ok`, a removal (`NoFingerPresent`) observed between the captures, second
capture reached `Ok`, second conversion, `createModel` and `storeModel`
all `Ok`; and whenever the handler returns without that Success response,
it has emitted a Failure response for the requested id instead. -/
theorem C1_enroll_success_characterization (id : Int) (s : List Nat) :
    (Event.response (successEnroll id) ∈ (enrollFinger id s).1 ↔
      enrollSuccessScript s) ∧
    ((enrollFinger id s).2.2 = .done →
      Event.response (successEnroll id) ∉ (enrollFinger id s).1 →
      ∃ m, m ∈ enrollFailMessages ∧
        Event.response (failEnroll id m) ∈ (enrollFinger id s).1) := by
  refine ⟨enrollFinger_success_iff id s, fun hd hns => ?_⟩
  obtain ⟨-, h2⟩ := enrollFinger_shape id s
  obtain ⟨pre, r, hev, hpre, hr⟩ := h2 hd
  rcases hr with rfl | ⟨m, hm, rfl⟩
  · refine absurd ?_ hns
    rw [hev]
    exact List.mem_append_right _ (List.mem_cons_self _ _)
  · refine ⟨m, hm, ?_⟩
    rw [hev]
    exact List.mem_append_right _ (List.mem_cons_self _ _)

/-- C1 witness: a failed first conversion (status 1 after a good capture)
yields a stage Failure response and no Success. -/
theorem C1_witness :
    ∃ m, m ∈ enrollFailMessages ∧
      Event.response (failEnroll 5 m) ∈ (enrollFinger 5 [0, 1]).1 :=
  (C1_enroll_success_characterization 5 [0, 1]).2 (by decide) (by decide)

/-- C4: every dispatched command that completes emits exactly one terminal
response (tag `S`, `F` or the Info tag `R`) followed by exactly one Ready
response, in that order; a command still blocked in a wait loop has
emitted no response at all. -/
theorem C4_response_discipline (c : Char) (a : Option Int) (v : SensorVals)
    (s : List Nat) :
    ((dispatch c a v s).2.2 = .done →
      ∃ t, responsesOf (dispatch c a v s).1 = [t, readyResponse] ∧
        (t.rtype = 'S' ∨ t.rtype = 'F' ∨ t.rtype = 'R')) ∧
    ((dispatch c a v s).2.2 = .hung →
      responsesOf (dispatch c a v s).1 = []) :=
  dispatch_responses_spec c a v s

/-- C4 witness: an unknown command token completes with its Failure
response followed by the Ready response. -/
theorem C4_witness :
    ∃ t, responsesOf (dispatch 'Z' none ⟨0, 0, 0⟩ []).1 = [t, readyResponse] ∧
      (t.rtype = 'S' ∨ t.rtype = 'F' ∨ t.rtype = 'R') :=
  (C4_response_discipline 'Z' none ⟨0, 0, 0⟩ []).1 (by decide)

lemma map_getImage_all_portCall (l : List Nat) :
    ∀ e ∈ l.map (Event.portCall .getImage), ∃ op st, e = Event.portCall op st := by
  intro e he
  obtain ⟨y, -, rfl⟩ := List.mem_map.mp he
  exact ⟨.getImage, y, rfl⟩

lemma single_portCall_all (op : PortOp) (st : Nat) :
    ∀ e ∈ [Event.portCall op st], ∃ op2 st2, e = Event.portCall op2 st2 := by
  intro e he
  rw [List.mem_singleton] at he
  exact ⟨op, st, he⟩

/-- Failure discipline of an enrollment stage result: a completed run
without the Success response ends in the Failure response placed
immediately after the failing sensor-port call, and the failure message is
the one `sensor.c` pairs with that call's operation — `getImage` failures
(statuses other than `Ok`/`NoFingerPresent`) get "Error taking image",
`image2Tz` failures "Error converting image", `createModel` failures
"Error creating model", `storeModel` failures "Error storing model". -/
def enrollFailShape (id : Int) (t : List Event × List Nat × RunStatus) : Prop :=
  t.2.2 = .done →
  Event.response (successEnroll id) ∉ t.1 →
  ∃ pre op st m,
    t.1 = pre ++ [Event.portCall op st, Event.response (failEnroll id m)] ∧
    (∀ e ∈ pre, ∃ op2 st2, e = Event.portCall op2 st2) ∧
    ((op = PortOp.getImage ∧ m = "Error taking image" ∧
        st ≠ FINGERPRINT_OK ∧ st ≠ FINGERPRINT_NOFINGER) ∨
     ((op = PortOp.image2Tz 1 ∨ op = PortOp.image2Tz 2) ∧
        m = "Error converting image" ∧ st ≠ FINGERPRINT_OK) ∨
     (op = PortOp.createModel ∧ m = "Error creating model" ∧
        st ≠ FINGERPRINT_OK) ∨
     (op = PortOp.storeModel id ∧ m = "Error storing model" ∧
        st ≠ FINGERPRINT_OK))

lemma enrollFailShape_withEvents {id : Int} {pre0 : List Event}
    {t : List Event × List Nat × RunStatus}
    (hpre0 : ∀ e ∈ pre0, ∃ op st, e = Event.portCall op st)
    (h : enrollFailShape id t) : enrollFailShape id (withEvents pre0 t) := by
  intro hd hns
  have hd2 : t.2.2 = .done := hd
  have hns2 : Event.response (successEnroll id) ∉ t.1 :=
    fun hm => hns (List.mem_append_right pre0 hm)
  obtain ⟨pre, op, st, m, hev, hpre, hcase⟩ := h hd2 hns2
  refine ⟨pre0 ++ pre, op, st, m, ?_, ?_, hcase⟩
  · show pre0 ++ t.1 = (pre0 ++ pre) ++
      [Event.portCall op st, Event.response (failEnroll id m)]
    rw [hev, List.append_assoc]
  · intro e he
    rcases List.mem_append.mp he with h1 | h1
    · exact hpre0 e h1
    · exact hpre e h1

lemma enrollStore_failShape (id : Int) (s : List Nat) :
    enrollFailShape id (enrollStore id s) := by
  cases s with
  | nil =>
    intro hd
    simp [enrollStore] at hd
  | cons p rest =>
    by_cases hp : p = FINGERPRINT_OK
    · intro hd hns
      refine absurd ?_ hns
      simp [enrollStore, hp]
    · intro hd hns
      refine ⟨[], PortOp.storeModel id, p, "Error storing model",
        by simp [enrollStore, hp], ?_, Or.inr (Or.inr (Or.inr ⟨rfl, rfl, hp⟩))⟩
      intro e he
      exact absurd he (List.not_mem_nil e)

lemma enrollCreate_failShape (id : Int) (s : List Nat) :
    enrollFailShape id (enrollCreate id s) := by
  cases s with
  | nil =>
    intro hd
    simp [enrollCreate] at hd
  | cons p rest =>
    by_cases hp : p = FINGERPRINT_OK
    · have heq : enrollCreate id (p :: rest) =
          withEvents [.portCall .createModel p] (enrollStore id rest) := by
        simp [enrollCreate, hp]
      rw [heq]
      exact enrollFailShape_withEvents (single_portCall_all _ _)
        (enrollStore_failShape id rest)
    · intro hd hns
      refine ⟨[], PortOp.createModel, p, "Error creating model",
        by simp [enrollCreate, hp], ?_, Or.inr (Or.inr (Or.inl ⟨rfl, rfl, hp⟩))⟩
      intro e he
      exact absurd he (List.not_mem_nil e)

lemma enrollConvert2_failShape (id : Int) (s : List Nat) :
    enrollFailShape id (enrollConvert2 id s) := by
  cases s with
  | nil =>
    intro hd
    simp [enrollConvert2] at hd
  | cons p rest =>
    by_cases hp : p = FINGERPRINT_OK
    · have heq : enrollConvert2 id (p :: rest) =
          withEvents [.portCall (.image2Tz 2) p] (enrollCreate id rest) := by
        simp [enrollConvert2, hp]
      rw [heq]
      exact enrollFailShape_withEvents (single_portCall_all _ _)
        (enrollCreate_failShape id rest)
    · intro hd hns
      refine ⟨[], PortOp.image2Tz 2, p, "Error converting image",
        by simp [enrollConvert2, hp], ?_,
        Or.inr (Or.inl ⟨Or.inr rfl, rfl, hp⟩)⟩
      intro e he
      exact absurd he (List.not_mem_nil e)

lemma enrollCapture2_failShape (id : Int) (s : List Nat) :
    enrollFailShape id (enrollCapture2 id s) := by
  rcases waitForImage_cases s with ⟨a, r1, ha, rfl, -⟩ |
    ⟨a, x, r1, ha, hx1, hx2, rfl, -⟩ | ⟨ha, -⟩
  · rw [enrollCapture2_eval_got id a r1 ha]
    exact enrollFailShape_withEvents (map_getImage_all_portCall _)
      (enrollConvert2_failShape id r1)
  · intro hd hns
    refine ⟨a.map (Event.portCall .getImage), PortOp.getImage, x,
      "Error taking image", ?_, map_getImage_all_portCall a,
      Or.inl ⟨rfl, rfl, hx1, hx2⟩⟩
    rw [enrollCapture2_eval_fail id a x r1 ha hx1 hx2]
    simp
  · intro hd
    rw [enrollCapture2_eval_exhaust id _ ha] at hd
    simp at hd

lemma enrollRemoval_failShape (id : Int) (s : List Nat) :
    enrollFailShape id (enrollRemoval id s) := by
  rcases waitForRemoval_cases s with ⟨b, r1, hb, rfl, -⟩ | ⟨hb, -⟩
  · rw [enrollRemoval_eval_found id b r1 hb]
    exact enrollFailShape_withEvents (map_getImage_all_portCall _)
      (enrollCapture2_failShape id r1)
  · intro hd
    rw [enrollRemoval_eval_lost id _ hb] at hd
    simp at hd

lemma enrollConvert1_failShape (id : Int) (s : List Nat) :
    enrollFailShape id (enrollConvert1 id s) := by
  cases s with
  | nil =>
    intro hd
    simp [enrollConvert1] at hd
  | cons p rest =>
    by_cases hp : p = FINGERPRINT_OK
    · have heq : enrollConvert1 id (p :: rest) =
          withEvents [.portCall (.image2Tz 1) p] (enrollRemoval id rest) := by
        simp [enrollConvert1, hp]
      rw [heq]
      exact enrollFailShape_withEvents (single_portCall_all _ _)
        (enrollRemoval_failShape id rest)
    · intro hd hns
      refine ⟨[], PortOp.image2Tz 1, p, "Error converting image",
        by simp [enrollConvert1, hp], ?_,
        Or.inr (Or.inl ⟨Or.inl rfl, rfl, hp⟩)⟩
      intro e he
      exact absurd he (List.not_mem_nil e)

lemma enrollFinger_failShape (id : Int) (s : List Nat) :
    enrollFailShape id (enrollFinger id s) := by
  rcases waitForImage_cases s with ⟨a, r1, ha, rfl, -⟩ |
    ⟨a, x, r1, ha, hx1, hx2, rfl, -⟩ | ⟨ha, -⟩
  · rw [enrollFinger_eval_got id a r1 ha]
    exact enrollFailShape_withEvents (map_getImage_all_portCall _)
      (enrollConvert1_failShape id r1)
  · intro hd hns
    refine ⟨a.map (Event.portCall .getImage), PortOp.getImage, x,
      "Error taking image", ?_, map_getImage_all_portCall a,
      Or.inl ⟨rfl, rfl, hx1, hx2⟩⟩
    rw [enrollFinger_eval_fail id a x r1 ha hx1 hx2]
    simp
  · intro hd
    rw [enrollFinger_eval_exhaust id _ ha] at hd
    simp at hd

/-- C8: when an enrollment run returns without the Success response, its
trace is sensor-port calls followed by exactly one final Failure response
that carries the requested id and sits immediately after the failing
port call, and the failure message is determined by that call's stage:
"Error taking image" for a capture (`getImage`) failure, "Error
converting image" for a conversion (`image2Tz` slot 1 or 2) failure,
"Error creating model" for a `createModel` failure, "Error storing
model" for a `storeModel` failure; nothing follows the Failure response,
so the failed stage is never retried within the invocation. -/
theorem C8_failure_identifies_stage (id : Int) (s : List Nat)
    (hd : (enrollFinger id s).2.2 = .done)
    (hs : Event.response (successEnroll id) ∉ (enrollFinger id s).1) :
    ∃ pre op st m,
      (enrollFinger id s).1 =
        pre ++ [Event.portCall op st, Event.response (failEnroll id m)] ∧
      (∀ e ∈ pre, ∃ op2 st2, e = Event.portCall op2 st2) ∧
      ((op = PortOp.getImage ∧ m = "Error taking image" ∧
          st ≠ FINGERPRINT_OK ∧ st ≠ FINGERPRINT_NOFINGER) ∨
       ((op = PortOp.image2Tz 1 ∨ op = PortOp.image2Tz 2) ∧
          m = "Error converting image" ∧ st ≠ FINGERPRINT_OK) ∨
       (op = PortOp.createModel ∧ m = "Error creating model" ∧
          st ≠ FINGERPRINT_OK) ∨
       (op = PortOp.storeModel id ∧ m = "Error storing model" ∧
          st ≠ FINGERPRINT_OK)) :=
  enrollFinger_failShape id s hd hs

/-- C8 witness: a storeModel failure (status 1 at the final stage). -/
theorem C8_witness :
    ∃ pre op st m,
      (enrollFinger 7 [0, 0, 2, 0, 0, 0, 1]).1 =
        pre ++ [Event.portCall op st, Event.response (failEnroll 7 m)] ∧
      (∀ e ∈ pre, ∃ op2 st2, e = Event.portCall op2 st2) ∧
      ((op = PortOp.getImage ∧ m = "Error taking image" ∧
          st ≠ FINGERPRINT_OK ∧ st ≠ FINGERPRINT_NOFINGER) ∨
       ((op = PortOp.image2Tz 1 ∨ op = PortOp.image2Tz 2) ∧
          m = "Error converting image" ∧ st ≠ FINGERPRINT_OK) ∨
       (op = PortOp.createModel ∧ m = "Error creating model" ∧
          st ≠ FINGERPRINT_OK) ∨
       (op = PortOp.storeModel (7 : Int) ∧ m = "Error storing model" ∧
          st ≠ FINGERPRINT_OK)) :=
  C8_failure_identifies_stage 7 [0, 0, 2, 0, 0, 0, 1] (by decide) (by decide)


/-- C3: an Enroll or Delete command whose id argument is absent (parsed as
-1) or outside [1,127] is answered by the "Invalid ID. Must be between
1-127" Failure response and the Ready response only, with zero
sensor-port invocations. -/
theorem C3_invalid_id_no_port_calls (c : Char) (a : Option Int)
    (v : SensorVals) (s : List Nat) (hc : c = 'E' ∨ c = 'D')
    (hr : ¬ (1 ≤ a.getD (-1) ∧ a.getD (-1) ≤ 127)) :
    (dispatch c a v s).1 =
      [Event.response invalidIdResponse, Event.response readyResponse] ∧
    portCallsOf (dispatch c a v s).1 = [] := by
  rcases hc with rfl | rfl
  · rw [dispatch_eq_enroll_invalid a v s hr]
    exact ⟨rfl, rfl⟩
  · rw [dispatch_eq_delete_invalid a v s hr]
    exact ⟨rfl, rfl⟩

/-- C3 witness: `D200` is rejected without touching the sensor. -/
theorem C3_witness :
    (dispatch 'D' (some 200) ⟨0, 0, 0⟩ [0]).1 =
      [Event.response invalidIdResponse, Event.response readyResponse] ∧
    portCallsOf (dispatch 'D' (some 200) ⟨0, 0, 0⟩ [0]).1 = [] :=
  C3_invalid_id_no_port_calls 'D' (some 200) ⟨0, 0, 0⟩ [0] (Or.inr rfl)
    (by decide)

/-- C5 counterexample: the waiting loops are not bounded-iteration — there
is no bound on the number of sensor-port calls one `enrollFinger`
invocation makes: for every candidate bound, a long enough run of
`NoFingerPresent` outcomes keeps the first capture wait polling past it. -/
theorem C5_counterexample :
    ¬ ∃ B : Nat, ∀ s : List Nat,
        (portCallsOf (enrollFinger 1 s).1).length ≤ B := by
  rintro ⟨B, hB⟩
  have h := hB (List.replicate (B + 1) FINGERPRINT_NOFINGER)
  rw [enrollFinger_replicate_nofinger] at h
  simp only [portCallsOf_map_getImage, List.length_map,
    List.length_replicate] at h
  omega

/-- C5 amended: the enrollment wait loops are unbounded polling — for
every n, a script of n consecutive `NoFingerPresent` outcomes makes the
first capture wait perform exactly n sensor-port polls without the
handler completing; the invocation terminates only when the sensor
eventually yields an outcome that exits each wait loop. -/
theorem C5_unbounded_polling (id : Int) (n : Nat) :
    (enrollFinger id (List.replicate n FINGERPRINT_NOFINGER)).2.2 = .hung ∧
    (portCallsOf
      (enrollFinger id (List.replicate n FINGERPRINT_NOFINGER)).1).length = n := by
  rw [enrollFinger_replicate_nofinger]
  refine ⟨rfl, ?_⟩
  rw [portCallsOf_map_getImage]
  simp

/-- C6: a Count command is answered with the `CMD_RESPONSE` (Info) tag
`R` — never `S` or `F` — carrying `finger.templateCount` in the id field,
confidence 0 and the fixed message "Template count", followed by Ready. -/
theorem C6_count_info_tag (a : Option Int) (v : SensorVals) (s : List Nat)
    (hs : s ≠ []) :
    responsesOf (dispatch 'C' a v s).1 =
      [⟨'R', (v.templateCount : Int), 0, "Template count"⟩, readyResponse] := by
  rw [dispatch_eq_count]
  rcases countHandler_cases v s with ⟨rfl, -⟩ | ⟨p, rest, rfl, hv⟩
  · exact absurd rfl hs
  · rw [hv]
    rfl

/-- C6 witness: a zero template count is still reported with the Info
tag. -/
theorem C6_witness :
    responsesOf (dispatch 'C' none ⟨0, 0, 0⟩ [0]).1 =
      [⟨'R', (0 : Int), 0, "Template count"⟩, readyResponse] :=
  C6_count_info_tag none ⟨0, 0, 0⟩ [0] (by decide)


/-- C9: whenever an enrollment run reaches the second conversion (and so
has issued the second capture), its trace splits at a `NoFingerPresent`
capture poll that comes after the successful first conversion and before
the second conversion: the removal observation strictly separates the two
captures. -/
theorem C9_removal_separates_captures (id : Int) (s : List Nat) (q : Nat)
    (h : Event.portCall (.image2Tz 2) q ∈ (enrollFinger id s).1) :
    ∃ e1 e2, (enrollFinger id s).1 =
        e1 ++ Event.portCall .getImage FINGERPRINT_NOFINGER :: e2 ∧
      Event.portCall (.image2Tz 1) FINGERPRINT_OK ∈ e1 ∧
      Event.portCall (.image2Tz 2) q ∈ e2 := by
  rcases waitForImage_cases s with ⟨a, r1, ha, rfl, -⟩ |
    ⟨a, x, r1, ha, hx1, hx2, rfl, -⟩ | ⟨ha, -⟩
  · rw [enrollFinger_eval_got id a r1 ha] at h ⊢
    simp only [withEvents, List.mem_append] at h
    rcases h with h | h
    · exact absurd h (by simp)
    · cases r1 with
      | nil => simp [enrollConvert1] at h
      | cons p r2 =>
        by_cases hp : p = FINGERPRINT_OK
        · subst hp
          rw [enrollConvert1_eval_ok] at h ⊢
          simp only [withEvents, List.mem_append] at h
          rcases h with h | h
          · simp at h
          · rcases waitForRemoval_cases r2 with ⟨b, r3, hb, rfl, -⟩ | ⟨hb, -⟩
            · rw [enrollRemoval_eval_found id b r3 hb] at h ⊢
              simp only [withEvents, List.mem_append] at h
              rcases h with h | h
              · exact absurd h (by simp)
              · refine ⟨(a ++ [FINGERPRINT_OK]).map (Event.portCall .getImage) ++
                  Event.portCall (.image2Tz 1) FINGERPRINT_OK ::
                  b.map (Event.portCall .getImage),
                  (enrollCapture2 id r3).1, ?_, ?_, h⟩
                · simp [withEvents]
                · simp
            · rw [enrollRemoval_eval_lost id _ hb] at h
              exact absurd h (by simp)
        · simp [enrollConvert1, hp] at h
  · rw [enrollFinger_eval_fail id a x r1 ha hx1 hx2] at h
    simp only [List.mem_append] at h
    rcases h with h | h
    · exact absurd h (by simp)
    · simp at h
  · rw [enrollFinger_eval_exhaust id _ ha] at h
    exact absurd h (by simp)

/-- C9 witness: the fully successful run of `E5`. -/
theorem C9_witness :
    ∃ e1 e2, (enrollFinger 5 [0, 0, 2, 0, 0, 0, 0]).1 =
        e1 ++ Event.portCall .getImage FINGERPRINT_NOFINGER :: e2 ∧
      Event.portCall (.image2Tz 1) FINGERPRINT_OK ∈ e1 ∧
      Event.portCall (.image2Tz 2) 0 ∈ e2 :=
  C9_removal_separates_captures 5 [0, 0, 2, 0, 0, 0, 0] 0 (by decide)

/-- C10: the removal-wait loop never responds and never fails — it can be
exited only by a `NoFingerPresent` poll result, and any other outcome
(hard sensor errors included) just re-polls; by contrast the capture-wait
states abort with a Failure response on any outcome other than `Ok` or
`NoFingerPresent`. -/
theorem C10_removal_wait_repolls_on_errors (x : Nat) (s : List Nat) (id : Int) :
    responsesOf (waitForRemoval s).1 = [] ∧
    ((waitForRemoval s).2.2 = true ↔ FINGERPRINT_NOFINGER ∈ s) ∧
    (x ≠ FINGERPRINT_NOFINGER →
      enrollRemoval id (x :: s) =
        withEvents [Event.portCall .getImage x] (enrollRemoval id s)) ∧
    (x ≠ FINGERPRINT_OK → x ≠ FINGERPRINT_NOFINGER →
      enrollCapture2 id (x :: s) =
        ([Event.portCall .getImage x,
          Event.response (failEnroll id "Error taking image")], s, .done)) := by
  refine ⟨?_, ?_, ?_, ?_⟩
  · rcases waitForRemoval_cases s with ⟨b, r1, hb, rfl, hw⟩ | ⟨hb, hw⟩ <;>
      rw [hw] <;> exact responsesOf_map_getImage _
  · rcases waitForRemoval_cases s with ⟨b, r1, hb, rfl, hw⟩ | ⟨hb, hw⟩ <;> rw [hw]
    · simp
    · constructor
      · intro h
        exact absurd h (by simp)
      · intro hmem
        exact absurd rfl (hb _ hmem)
  · intro hx
    rcases waitForRemoval_cases s with ⟨b, r1, hb, rfl, -⟩ | ⟨hb, -⟩
    · have h1 : x :: (b ++ FINGERPRINT_NOFINGER :: r1) =
          (x :: b) ++ FINGERPRINT_NOFINGER :: r1 := rfl
      rw [h1, enrollRemoval_eval_found id (x :: b) r1 (noneNoFinger_cons hx hb),
        enrollRemoval_eval_found id b r1 hb]
      simp [withEvents]
    · rw [enrollRemoval_eval_lost id (x :: s) (noneNoFinger_cons hx hb),
        enrollRemoval_eval_lost id s hb]
      simp [withEvents]
  · intro hx1 hx2
    have h1 : x :: s = [] ++ x :: s := rfl
    rw [h1, enrollCapture2_eval_fail id [] x s allNoFinger_nil hx1 hx2]
    rfl

/-- C10 witness: a hard error status 1 inside the removal wait re-polls,
while the same status inside the second capture wait aborts with a
Failure. -/
theorem C10_witness :
    (enrollRemoval 3 (1 :: [2]) =
      withEvents [Event.portCall .getImage 1] (enrollRemoval 3 [2])) ∧
    (enrollCapture2 3 (1 :: [2]) =
      ([Event.portCall .getImage 1,
        Event.response (failEnroll 3 "Error taking image")], [2], .done)) :=
  ⟨(C10_removal_wait_repolls_on_errors 1 [2] 3).2.2.1 (by decide),
   (C10_removal_wait_repolls_on_errors 1 [2] 3).2.2.2 (by decide) (by decide)⟩


/-- C2: a Verify command emits the Success response carrying the matched
id (`finger.fingerID`) and confidence (`finger.confidence`) exactly when
the search step returned `FINGERPRINT_OK` (a search match); whenever the
handler completes without a search match — capture failure, no finger,
conversion failure or search miss — it answers Failure with id 0 and
confidence 0 ("No match found") followed by Ready. -/
theorem C2_verify_success_iff_search_match (a : Option Int) (v : SensorVals)
    (s : List Nat) :
    (Event.response (verifySuccess v) ∈ (dispatch 'V' a v s).1 ↔
      Event.portCall .fingerSearch FINGERPRINT_OK ∈ (dispatch 'V' a v s).1) ∧
    ((dispatch 'V' a v s).2.2 = .done →
      Event.portCall .fingerSearch FINGERPRINT_OK ∉ (dispatch 'V' a v s).1 →
      responsesOf (dispatch 'V' a v s).1 = [noMatchResponse, readyResponse]) := by
  rw [dispatch_eq_verify]
  rcases verifyHandler_cases v s with ⟨-, hv⟩ | ⟨p, s1, -, hp, hv⟩ |
    ⟨-, hv⟩ | ⟨q, s2, -, hq, hv⟩ | ⟨-, hv⟩ | ⟨r, s3, -, hr, hv⟩ |
    ⟨s3, -, hv⟩ <;> rw [hv]
  · simp [finishReady]
  · simp [finishReady, verifySuccess, noMatchResponse, readyResponse, responsesOf]
  · simp [finishReady]
  · simp [finishReady, verifySuccess, noMatchResponse, readyResponse, responsesOf]
  · simp [finishReady]
  · simp [finishReady, verifySuccess, noMatchResponse, readyResponse,
      responsesOf, hr, Ne.symm hr]
  · simp [finishReady, verifySuccess, noMatchResponse, readyResponse, responsesOf]

/-- C2 witness: a capture failure (no finger present) yields the
no-match Failure with id 0 and confidence 0. -/
theorem C2_witness :
    responsesOf (dispatch 'V' none ⟨4, 9, 0⟩ [2]).1 =
      [noMatchResponse, readyResponse] :=
  (C2_verify_success_iff_search_match none ⟨4, 9, 0⟩ [2]).2 (by decide) (by decide)

/-- C7: every response any dispatched command emits is tagged `S`, `F`,
`Y` or `R` and serializes as `R,<tag>,<id>,<confidence>,<message>` with
the integers in decimal; in particular a successful `E5` run ends with
the lines `R,S,5,0,Fingerprint enrolled successfully` and
`R,Y,0,0,Ready for next command`, and an unknown token `Z` produces
`R,F,0,0,Unknown command` followed by the Ready line. -/
theorem C7_wire_format :
    (∀ (c : Char) (a : Option Int) (v : SensorVals) (s : List Nat)
        (r : Response), Event.response r ∈ (dispatch c a v s).1 →
      (r.rtype = 'S' ∨ r.rtype = 'F' ∨ r.rtype = 'Y' ∨ r.rtype = 'R') ∧
      sendSerialResponse r = "R," ++ String.singleton r.rtype ++ "," ++
        toString r.rid ++ "," ++ toString r.confidence ++ "," ++ r.message) ∧
    (responsesOf (dispatch 'E' (some 5) ⟨0, 0, 0⟩
        [0, 0, 2, 0, 0, 0, 0]).1).map sendSerialResponse =
      ["R,S,5,0,Fingerprint enrolled successfully",
       "R,Y,0,0,Ready for next command"] ∧
    (responsesOf (dispatch 'Z' none ⟨0, 0, 0⟩ []).1).map sendSerialResponse =
      ["R,F,0,0,Unknown command", "R,Y,0,0,Ready for next command"] := by
  refine ⟨fun c a v s r h => ⟨?_, rfl⟩, by decide, by decide⟩
  have hmem : r ∈ responsesOf (dispatch c a v s).1 := mem_responsesOf.mpr h
  obtain ⟨hdone, hhung⟩ := dispatch_responses_spec c a v s
  cases hst : (dispatch c a v s).2.2 with
  | done =>
    obtain ⟨t, hresp, htag⟩ := hdone hst
    rw [hresp] at hmem
    rcases List.mem_cons.mp hmem with rfl | hmem2
    · rcases htag with h1 | h1 | h1
      · exact Or.inl h1
      · exact Or.inr (Or.inl h1)
      · exact Or.inr (Or.inr (Or.inr h1))
    · rcases List.mem_cons.mp hmem2 with rfl | hmem3
      · exact Or.inr (Or.inr (Or.inl rfl))
      · exact absurd hmem3 (List.not_mem_nil r)
  | hung =>
    rw [hhung hst] at hmem
    exact absurd hmem (List.not_mem_nil r)

/-- C7 witness: the unknown-command Failure response instantiates the
format and tag-set statement. -/
theorem C7_witness :
    (unknownResponse.rtype = 'S' ∨ unknownResponse.rtype = 'F' ∨
      unknownResponse.rtype = 'Y' ∨ unknownResponse.rtype = 'R') ∧
    sendSerialResponse unknownResponse = "R," ++
      String.singleton unknownResponse.rtype ++ "," ++
      toString unknownResponse.rid ++ "," ++
      toString unknownResponse.confidence ++ "," ++ unknownResponse.message :=
  C7_wire_format.1 'Z' none ⟨0, 0, 0⟩ [] unknownResponse (by decide)

end LocalFingerprint
